import Mathlib

/-!
Verification of the contract execution engine of `cw-simulate`
(`src/src/modules/wasm.ts`, class `WasmModule`) against its specification.

The engine is shallowly embedded: TypeScript class state (`lastCodeId`,
`lastInstanceId`, the VM cache `vms`, and `chain.store`) becomes an explicit
`WasmState` value threaded through every operation; thrown JS exceptions
become the `Except EngineError` layer; `ts-results` `Result<AppResponse,
string>` becomes `Except String AppResponse`; the unbounded mutual recursion
through the message router is indexed by a fuel parameter (running out of
fuel is reported as a distinguished `EngineError`, an artifact of the
embedding, never confused with engine behaviour).

The bytecode VM itself is out of scope of the spec (§1); the engine consumes
it through an interface (§6).  We model a loaded bytecode as a semantic
function table `VMBehavior` supplied by the context, and `CodeInfo.wasmCode`
as an index into that table.
-/

namespace CWSim

/-- Modelled from the spec (§1, §6): base64/JSON serialization of user inputs
is out of scope; `Binary` payloads are treated as opaque strings. -/
abbrev Binary := String

/-- Modelled from the spec (§6): the decoded JSON message handed to a VM entry
point.  `fromBinary` decodes a `Binary`; serialization being out of scope, the
decoding is the identity. -/
abbrev Msg := String

/-- Modelled from the spec: `fromBinary` from `../util` (not under `src/`)
base64-decodes and JSON-parses a payload; serialization is out of scope (§1),
so the model treats it as the identity on opaque payloads. -/
def fromBinary (b : Binary) : Msg := b

/-- A key/value attribute of an event (`../types`, modelled from the spec §3). -/
structure KVAttribute where
  key : String
  value : String
deriving DecidableEq, Repr

/-- An event: a type tag plus attributes (`../types`, modelled from the spec §3). -/
structure Event where
  type : String
  attributes : List KVAttribute
deriving DecidableEq, Repr

/-- A coin amount (`../types`, modelled from the spec §3). -/
structure Coin where
  denom : String
  amount : String
deriving DecidableEq, Repr

/-- `RustResult<T>` from `../types` (modelled from the spec §6): the
`{ ok: T } | { error: string }` payload a VM entry point returns. -/
inductive RustResult (α : Type) where
  | ok (val : α)
  | error (err : String)
deriving DecidableEq, Repr

/-- Modelled from the spec (§4.5): the reply-on policy of a submessage. -/
inductive ReplyOn where
  | never
  | success
  | error
  | always
deriving DecidableEq, Repr

/-- Per-contract storage: an immutable `string → string` map
(`immutable.Map` in the source), modelled as an association list with
value semantics. -/
abbrev Storage := List (String × String)

/-- Lookup in an association list (`Map.get`). -/
def lookupA {α β : Type} [DecidableEq α] : List (α × β) → α → Option β
  | [], _ => none
  | (k, v) :: rest, key => if k = key then some v else lookupA rest key

/-- Insert-or-replace in an association list (`Map.set` / `setIn`):
replaces the binding in place if the key is present, else appends. -/
def setA {α β : Type} [DecidableEq α] : List (α × β) → α → β → List (α × β)
  | [], key, val => [(key, val)]
  | (k, v) :: rest, key, val =>
    if k = key then (key, val) :: rest else (k, v) :: setA rest key val

/-- Delete from an association list (`Map.delete` / `deleteIn`). -/
def deleteA {α β : Type} [DecidableEq α] : List (α × β) → α → List (α × β)
  | [], _ => []
  | (k, v) :: rest, key =>
    if k = key then rest else (k, v) :: deleteA rest key

/-! ## SHA-256, executable, over byte lists (`@cosmjs/crypto` `Sha256`)

Bytes and 32-bit words are `Nat`s reduced mod `2 ^ 8` / `2 ^ 32` explicitly. -/

/-- Right rotation of a 32-bit word. -/
def rotr32 (x n : Nat) : Nat := ((x >>> n) ||| (x <<< (32 - n))) % 2 ^ 32

/-- SHA-256 small sigma 0. -/
def smallSig0 (x : Nat) : Nat := rotr32 x 7 ^^^ rotr32 x 18 ^^^ (x >>> 3)

/-- SHA-256 small sigma 1. -/
def smallSig1 (x : Nat) : Nat := rotr32 x 17 ^^^ rotr32 x 19 ^^^ (x >>> 10)

/-- SHA-256 big sigma 0. -/
def bigSig0 (x : Nat) : Nat := rotr32 x 2 ^^^ rotr32 x 13 ^^^ rotr32 x 22

/-- SHA-256 big sigma 1. -/
def bigSig1 (x : Nat) : Nat := rotr32 x 6 ^^^ rotr32 x 11 ^^^ rotr32 x 25

/-- SHA-256 choice function; the complement is taken within 32 bits. -/
def sha256Ch (x y z : Nat) : Nat := (x &&& y) ^^^ ((x ^^^ 0xffffffff) &&& z)

/-- SHA-256 majority function. -/
def sha256Maj (x y z : Nat) : Nat := (x &&& y) ^^^ (x &&& z) ^^^ (y &&& z)

/-- The 64 SHA-256 round constants (FIPS 180-4 §4.2.2, in decimal). -/
def sha256K : List Nat :=
  [1116352408, 1899447441, 3049323471, 3921009573, 961987163,
   1508970993, 2453635748, 2870763221, 3624381080, 310598401,
   607225278, 1426881987, 1925078388, 2162078206, 2614888103,
   3248222580, 3835390401, 4022224774, 264347078, 604807628,
   770255983, 1249150122, 1555081692, 1996064986, 2554220882,
   2821834349, 2952996808, 3210313671, 3336571891, 3584528711,
   113926993, 338241895, 666307205, 773529912, 1294757372,
   1396182291, 1695183700, 1986661051, 2177026350, 2456956037,
   2730485921, 2820302411, 3259730800, 3345764771, 3516065817,
   3600352804, 4094571909, 275423344, 430227734, 506948616,
   659060556, 883997877, 958139571, 1322822218, 1537002063,
   1747873779, 1955562222, 2024104815, 2227730452, 2361852424,
   2428436474, 2756734187, 3204031479, 3329325298]

/-- The SHA-256 initial hash state (FIPS 180-4 §5.3.3, in decimal). -/
def sha256H0 : List Nat :=
  [1779033703, 3144134277, 1013904242, 2773480762,
   1359893119, 2600822924, 528734635, 1541459225]

/-- Append SHA-256 padding to a byte message. -/
def sha256Pad (msg : List Nat) : List Nat :=
  let len := msg.length
  let bitLen := len * 8
  let zeros := (64 - (len + 9) % 64) % 64
  msg ++ [0x80] ++ List.replicate zeros 0 ++
    [bitLen / 2 ^ 56 % 256, bitLen / 2 ^ 48 % 256, bitLen / 2 ^ 40 % 256,
     bitLen / 2 ^ 32 % 256, bitLen / 2 ^ 24 % 256, bitLen / 2 ^ 16 % 256,
     bitLen / 2 ^ 8 % 256, bitLen % 256]

/-- Group a padded byte list into big-endian 32-bit words. -/
def bytesToWords : List Nat → List Nat
  | b0 :: b1 :: b2 :: b3 :: rest =>
    (((b0 * 256 + b1) * 256 + b2) * 256 + b3) :: bytesToWords rest
  | _ => []

/-- Extend the 16 block words to the 64-entry message schedule. -/
def sha256Schedule (block : List Nat) : List Nat :=
  (List.range 48).foldl
    (fun w _ =>
      let s := w.length
      w ++ [(smallSig1 (w.getD (s - 2) 0) + w.getD (s - 7) 0 +
             smallSig0 (w.getD (s - 15) 0) + w.getD (s - 16) 0) % 2 ^ 32])
    (bytesToWords block)

/-- One SHA-256 compression round. -/
def sha256Round (w : List Nat) (st : List Nat) (i : Nat) : List Nat :=
  match st with
  | [a, b, c, d, e, f, g, h] =>
    let t1 := (h + bigSig1 e + sha256Ch e f g + sha256K.getD i 0 + w.getD i 0) % 2 ^ 32
    let t2 := (bigSig0 a + sha256Maj a b c) % 2 ^ 32
    [(t1 + t2) % 2 ^ 32, a, b, c, (d + t1) % 2 ^ 32, e, f, g]
  | other => other

/-- SHA-256 compression of one 64-byte block into the running hash state. -/
def sha256Compress (hs : List Nat) (block : List Nat) : List Nat :=
  let w := sha256Schedule block
  let st := (List.range 64).foldl (sha256Round w) hs
  (hs.zip st).map (fun p => (p.1 + p.2) % 2 ^ 32)

/-- Split a byte list into 64-byte blocks; the first argument bounds the
number of blocks (each step consumes at least one byte, so the byte count is
a bound — structural recursion keeps the definition computable by the
kernel). -/
def chunks64Go : Nat → List Nat → List (List Nat)
  | 0, _ => []
  | _, [] => []
  | n + 1, b :: rest => ((b :: rest).take 64) :: chunks64Go n ((b :: rest).drop 64)

/-- Split a (padded) byte list into 64-byte blocks. -/
def chunks64 (l : List Nat) : List (List Nat) := chunks64Go l.length l

/-- SHA-256 of a byte message, as 32 bytes. -/
def sha256 (msg : List Nat) : List Nat :=
  let final := (chunks64 (sha256Pad msg)).foldl sha256Compress sha256H0
  (final.map (fun w => [w / 2 ^ 24 % 256, w / 2 ^ 16 % 256, w / 2 ^ 8 % 256, w % 256])).flatten

/-- UTF-8 bytes of a string; all strings hashed by the engine are ASCII, for
which UTF-8 is the code-point value. -/
def utf8 (s : String) : List Nat := s.data.map Char.toNat

/-! ## Address derivation (`wasm.ts` lines 34–40 and 93–113) -/

/-- `numberToBigEndianUint64` (`wasm.ts:34`): allocates an 8-byte buffer and
executes `view.setUint32(0, n, false); view.setUint32(4, 0, false)` — the
value is written big-endian into bytes 0–3 and bytes 4–7 are zeroed.
`setUint32` coerces its argument modulo `2 ^ 32`. -/
def numberToBigEndianUint64 (n : Nat) : List Nat :=
  let m := n % 2 ^ 32
  [m / 2 ^ 24 % 256, m / 2 ^ 16 % 256, m / 2 ^ 8 % 256, m % 256, 0, 0, 0, 0]

/-- Modelled from the spec (§4.1): `be_u64(n)`, the 8-byte big-endian
encoding of the integer `n`.  Used only to compare the source's encoding
against the claimed one. -/
def beU64 (n : Nat) : List Nat :=
  [n / 2 ^ 56 % 256, n / 2 ^ 48 % 256, n / 2 ^ 40 % 256, n / 2 ^ 32 % 256,
   n / 2 ^ 24 % 256, n / 2 ^ 16 % 256, n / 2 ^ 8 % 256, n % 256]

/-- `WasmModule.buildContractAddress` (`wasm.ts:93`): the first 20 bytes of
`SHA256(SHA256("module") || "wasm" || 0x00 || enc(codeId) || enc(instanceId))`
where `enc` is `numberToBigEndianUint64`.  (`new Sha256(th)` seeds the second
hasher with the inner digest before `update(payload)`.) -/
def buildContractAddress (codeId instanceId : Nat) : List Nat :=
  let contractId := numberToBigEndianUint64 codeId ++ numberToBigEndianUint64 instanceId
  let mKey := utf8 "wasm" ++ [0]
  let payload := mKey ++ contractId
  let th := sha256 (utf8 "module")
  (sha256 (th ++ payload)).take 20

/-- Modelled from the spec (§3): `toBech32` from the external
`@cosmjs/encoding` library (not part of this repository).  The spec requires
only a deterministic, injective encoding of the 20 address bytes under the
configured human-readable prefix; the checksummed base-32 details are out of
scope, so a hex rendering stands in for them. -/
def toBech32 (hrp : String) (bytes : List Nat) : String :=
  hrp ++ "1" ++ String.join (bytes.map (fun b =>
    let hex := fun d => String.singleton (Nat.digitChar d)
    hex (b / 16 % 16) ++ hex (b % 16)))

/-! ## Data model (`../types`, modelled from the spec §3, and `wasm.ts`) -/

/-- `CodeInfo` (spec §3): `{ creator, wasmCode }`.  The engine treats the
bytecode as opaque and only ever hands it to the VM loader, so the model
stores an index into the context's table of VM semantics. -/
structure CodeInfo where
  creator : String
  wasmCode : Nat
deriving DecidableEq, Repr

/-- `ContractInfo` (spec §3). -/
structure ContractInfo where
  codeId : Nat
  creator : String
  admin : Option String
  label : String
  created : Nat
deriving DecidableEq, Repr

/-- The wasm slice of the chain store (`wasm.ts:87`):
`{ codes: {}, contracts: {}, contractStorage: {} }` under the `'wasm'` key of
`chain.store`.  Snapshotting copies the reference; mutations never alias a
snapshot (spec §3). -/
structure ChainStore where
  codes : List (Nat × CodeInfo)
  contracts : List (String × ContractInfo)
  contractStorage : List (String × Storage)
deriving DecidableEq, Repr

/-- `MessageInfo` (spec §3): `{ sender, funds }`. -/
structure MessageInfo where
  sender : String
  funds : List Coin
deriving DecidableEq, Repr

/-- The block part of `ExecuteEnv` (`wasm.ts:176`): height, `time.toFixed()`
(a decimal string), chain id. -/
structure BlockEnv where
  height : Nat
  time : String
  chain_id : String
deriving DecidableEq, Repr

/-- The contract part of `ExecuteEnv`. -/
structure ContractEnv where
  address : String
deriving DecidableEq, Repr

/-- `ExecuteEnv` (`wasm.ts:176`, spec §3). -/
structure ExecuteEnv where
  block : BlockEnv
  contract : ContractEnv
deriving DecidableEq, Repr

/-- `SubMsg.msg` routed through `chain.handleMsg`.  Modelled from the spec
(§6): the router dispatches wasm-variant messages into this module; the
bank/staking modules are out of scope (§1), so the wasm variants and the
"none of the known variants" case are the message type.  Fields follow the
`Execute` interface (`wasm.ts:42`). -/
structure ExecuteMsg where
  contract_addr : String
  msg : Binary
  funds : List Coin
deriving DecidableEq, Repr

/-- Fields of the `Instantiate` interface (`wasm.ts:48`). -/
structure InstantiateMsg where
  admin : Option String
  code_id : Nat
  msg : Binary
  funds : List Coin
  label : String
deriving DecidableEq, Repr

/-- `WasmMsg` (`wasm.ts:70`): `{ execute } | { instantiate }`.  TypeScript
objects are open at runtime, so `handleMsg`'s trailing `else` branch is
reachable; `unknown` stands for any value matching neither tag. -/
inductive WasmMsg where
  | execute (e : ExecuteMsg)
  | instantiate (i : InstantiateMsg)
  | unknown
deriving DecidableEq, Repr

/-- `SubMsg` (spec §3): `{ id, msg, gas_limit, reply_on }`.  `gas_limit` is
destructured but never used by `executeSubmsg`. -/
structure SubMsg where
  id : Nat
  msg : WasmMsg
  gas_limit : Option Nat
  reply_on : ReplyOn
deriving DecidableEq, Repr

/-- `ContractResponse` (spec §3): what a VM entry point returns on success. -/
structure ContractResponse where
  messages : List SubMsg
  attributes : List KVAttribute
  events : List Event
  data : Option Binary
deriving DecidableEq, Repr

/-- `AppResponse` (spec §3): the engine's output. -/
structure AppResponse where
  events : List Event
  data : Option Binary
deriving DecidableEq, Repr

/-- `ReplyMsg` (`../types`, modelled from the spec §4.5):
`{ id, result: { ok: { events, data } } | { error } }`. -/
structure ReplyMsg where
  id : Nat
  result : RustResult AppResponse
deriving DecidableEq, Repr

/-- The `ts-results` `Result<AppResponse, string>` returned by the engine's
entry points: `Ok` on the left of the spec, `Err e` carries the VM's error
string. -/
abbrev CallResult := Except String AppResponse

/-- `SmartQuery` (`wasm.ts:56`). -/
structure SmartQuery where
  contract_addr : String
  msg : Binary
deriving DecidableEq, Repr

/-- `RawQuery` (`wasm.ts:61`). -/
structure RawQuery where
  contract_addr : String
  key : Binary
deriving DecidableEq, Repr

/-- `ContractInfoQuery` (`wasm.ts:66`). -/
structure ContractInfoQuery where
  contract_addr : String
deriving DecidableEq, Repr

/-- `WasmQuery` (`wasm.ts:74`): `smart | raw | contract_info`, plus the
run-time possibility of a value matching none of the tags (the source's
trailing `else`). -/
inductive WasmQuery where
  | smart (q : SmartQuery)
  | raw (q : RawQuery)
  | contract_info (q : ContractInfoQuery)
  | unknown
deriving DecidableEq, Repr

/-- `ContractInfoResponse` (`../types`, modelled from the spec §6). -/
structure ContractInfoResponse where
  code_id : Nat
  creator : String
  admin : Option String
  ibc_port : Option String
  pinned : Bool
deriving DecidableEq, Repr

/-- Engine-level failures, thrown as JS exceptions (spec §7).  `outOfFuel` is
an artifact of the embedding only: it marks that the fuel bound of the
mutual recursion was reached, something no finite run of the source exhibits. -/
inductive EngineError where
  | contractNotFound (addr : String)
  | codeNotFound (codeId : Nat)
  | noVM (addr : String)
  | unknownWasmMsg
  | outOfFuel
deriving DecidableEq, Repr

/-- The semantics of one loaded bytecode, as consumed through the VM
interface (spec §6).  Each entry point maps env/info/message and the VM's
current working storage to a `RustResult` and the updated working storage;
`query` is the read-only entry point. -/
structure VMBehavior where
  instantiateFn : ExecuteEnv → MessageInfo → Msg → Storage → RustResult ContractResponse × Storage
  executeFn : ExecuteEnv → MessageInfo → Msg → Storage → RustResult ContractResponse × Storage
  replyFn : ExecuteEnv → ReplyMsg → Storage → RustResult ContractResponse × Storage
  queryFn : ExecuteEnv → Msg → Storage → RustResult Binary

/-- A cached VM instance (`this.vms[addr]`): the bytecode it was built from
and its backend storage dict (`vm.backend.storage.dict`). -/
structure VMInstance where
  wasmCode : Nat
  storage : Storage
deriving DecidableEq, Repr

/-- The mutable state of `WasmModule` plus the chain store it owns:
`lastCodeId`, `lastInstanceId`, the VM cache, and `chain.store`'s wasm
slice. -/
structure WasmState where
  lastCodeId : Nat
  lastInstanceId : Nat
  vms : List (String × VMInstance)
  store : ChainStore
deriving DecidableEq, Repr

/-- Host-supplied context (modelled from the spec §1, §6): the
`CWSimulateApp` fields the module reads (`bech32Prefix`, `height`, `time`,
`chainId`) and the VM loader semantics `vmsem`, which maps a stored bytecode
to its behaviour (`vm.build(wasmCode)` is the out-of-scope loader). -/
structure SimContext where
  hrp : String
  height : Nat
  time : Nat
  chainId : String
  vmsem : Nat → VMBehavior

/-- A trace entry (spec §4.6).  The `logs` field of the source is VM
instrumentation output, out of scope (§1), and is omitted; `subtrace` is
`none` exactly where the source's object literal has no `trace` field. -/
inductive TraceLog where
  | instantiate (contractAddress : String) (msg : Msg)
      (response : RustResult ContractResponse) (info : MessageInfo)
      (env : ExecuteEnv) (subtrace : Option (List TraceLog))
      (storeSnapshot : ChainStore) (result : CallResult)
  | execute (contractAddress : String) (msg : Msg)
      (response : RustResult ContractResponse) (info : MessageInfo)
      (env : ExecuteEnv) (subtrace : Option (List TraceLog))
      (storeSnapshot : ChainStore) (result : CallResult)
  | reply (contractAddress : String) (msg : ReplyMsg)
      (response : RustResult ContractResponse)
      (env : ExecuteEnv) (subtrace : Option (List TraceLog))
      (storeSnapshot : ChainStore) (result : CallResult)

/-- The outcome type of the engine's recursive entry points: a thrown
exception, or a settled `Result` with the final module state and the trace
entries appended to the caller's buffer. -/
abbrev CallOutcome := Except EngineError (CallResult × WasmState × List TraceLog)

/-! ## Store accessors (`wasm.ts:115–163`) -/

/-- `setContractStorage` (`wasm.ts:115`). -/
def setContractStorage (st : WasmState) (contractAddress : String) (value : Storage) : WasmState :=
  { st with store := { st.store with
      contractStorage := setA st.store.contractStorage contractAddress value } }

/-- `getContractStorage` (`wasm.ts:122`): `existing ?? Map()` — never
`undefined`; a missing contract yields the empty map. -/
def getContractStorage (store : ChainStore) (contractAddress : String) : Storage :=
  (lookupA store.contractStorage contractAddress).getD []

/-- `setCodeInfo` (`wasm.ts:131`). -/
def setCodeInfo (st : WasmState) (codeId : Nat) (codeInfo : CodeInfo) : WasmState :=
  { st with store := { st.store with codes := setA st.store.codes codeId codeInfo } }

/-- `getCodeInfo` (`wasm.ts:138`); the source's cast hides that the lookup
can be `undefined`, which `buildVM` checks. -/
def getCodeInfo (store : ChainStore) (codeId : Nat) : Option CodeInfo :=
  lookupA store.codes codeId

/-- `setContractInfo` (`wasm.ts:142`). -/
def setContractInfo (st : WasmState) (contractAddress : String) (contractInfo : ContractInfo) : WasmState :=
  { st with store := { st.store with
      contracts := setA st.store.contracts contractAddress contractInfo } }

/-- `getContractInfo` (`wasm.ts:149`). -/
def getContractInfo (store : ChainStore) (contractAddress : String) : Option ContractInfo :=
  lookupA store.contracts contractAddress

/-- `deleteContractInfo` (`wasm.ts:157`). -/
def deleteContractInfo (st : WasmState) (contractAddress : String) : WasmState :=
  { st with store := { st.store with
      contracts := deleteA st.store.contracts contractAddress } }

/-- `create` (`wasm.ts:165`): store a `CodeInfo` under `lastCodeId + 1`, bump
the counter, return the new id. -/
def create (st : WasmState) (creator : String) (wasmCode : Nat) : Nat × WasmState :=
  let codeInfo : CodeInfo := { creator := creator, wasmCode := wasmCode }
  let st := setCodeInfo st (st.lastCodeId + 1) codeInfo
  let st := { st with lastCodeId := st.lastCodeId + 1 }
  (st.lastCodeId, st)

/-- `getExecutionEnv` (`wasm.ts:176`). -/
def getExecutionEnv (ctx : SimContext) (contractAddress : String) : ExecuteEnv :=
  { block := { height := ctx.height, time := toString ctx.time, chain_id := ctx.chainId },
    contract := { address := contractAddress } }

/-- `buildVM` (`wasm.ts:189`): return the cached VM if present; otherwise
look up `ContractInfo` (throwing `contract … not found`), look up `CodeInfo`
(throwing `code … not found`), seed a fresh VM's storage from
`contractStorage[addr]`, build the bytecode, cache and return. -/
def buildVM (st : WasmState) (contractAddress : String) :
    Except EngineError (VMInstance × WasmState) :=
  match lookupA st.vms contractAddress with
  | some vm => .ok (vm, st)
  | none =>
    match getContractInfo st.store contractAddress with
    | none => .error (.contractNotFound contractAddress)
    | some contractInfo =>
      match getCodeInfo st.store contractInfo.codeId with
      | none => .error (.codeNotFound contractInfo.codeId)
      | some codeInfo =>
        let vm : VMInstance :=
          { wasmCode := codeInfo.wasmCode,
            storage := getContractStorage st.store contractAddress }
        .ok (vm, { st with vms := setA st.vms contractAddress vm })

/-- `registerContractInstance` (`wasm.ts:221`): derive the address from
`(codeId, lastInstanceId + 1)`, write a fresh `ContractInfo` and an empty
storage map, bump `lastInstanceId`, and return the bech32 address. -/
def registerContractInstance (ctx : SimContext) (st : WasmState)
    (sender : String) (codeId : Nat) : String × WasmState :=
  let contractAddressHash := buildContractAddress codeId (st.lastInstanceId + 1)
  let contractAddress := toBech32 ctx.hrp contractAddressHash
  let contractInfo : ContractInfo :=
    { codeId := codeId, creator := sender, admin := none, label := "",
      created := ctx.height }
  let st := setContractInfo st contractAddress contractInfo
  let st := setContractStorage st contractAddress []
  (contractAddress, { st with lastInstanceId := st.lastInstanceId + 1 })

/-- `callInstantiate` (`wasm.ts:247`): build (or fetch) the VM, run its
`instantiate` entry point, write the VM's storage back into
`contractStorage[addr]`, and return the raw `RustResult`.  (Debug logs are
out-of-scope instrumentation.) -/
def callInstantiate (ctx : SimContext) (st : WasmState) (sender : String)
    (funds : List Coin) (contractAddress : String) (instantiateMsg : Msg) :
    Except EngineError (RustResult ContractResponse × WasmState) :=
  match buildVM st contractAddress with
  | .error ex => .error ex
  | .ok (vm, st) =>
    let env := getExecutionEnv ctx contractAddress
    let info : MessageInfo := { sender := sender, funds := funds }
    let out := (ctx.vmsem vm.wasmCode).instantiateFn env info instantiateMsg vm.storage
    let st := { st with vms := setA st.vms contractAddress { vm with storage := out.2 } }
    let st := setContractStorage st contractAddress out.2
    .ok (out.1, st)

/-- `callExecute` (`wasm.ts:356`): requires a cached VM (`No VM for contract
…` is thrown otherwise — `buildVM` is never consulted here), runs `execute`
on the cached VM's current dict, and writes the dict back into the chain
store.  Note the cached dict is *not* re-seeded from the chain store. -/
def callExecute (ctx : SimContext) (st : WasmState) (sender : String)
    (funds : List Coin) (contractAddress : String) (executeMsg : Msg) :
    Except EngineError (RustResult ContractResponse × WasmState) :=
  match lookupA st.vms contractAddress with
  | none => .error (.noVM contractAddress)
  | some vm =>
    let env := getExecutionEnv ctx contractAddress
    let info : MessageInfo := { sender := sender, funds := funds }
    let out := (ctx.vmsem vm.wasmCode).executeFn env info executeMsg vm.storage
    let st := { st with vms := setA st.vms contractAddress { vm with storage := out.2 } }
    let st := setContractStorage st contractAddress out.2
    .ok (out.1, st)

/-- `callReply` (`wasm.ts:546`): like `callExecute` but for the `reply`
entry point. -/
def callReply (ctx : SimContext) (st : WasmState) (contractAddress : String)
    (replyMsg : ReplyMsg) :
    Except EngineError (RustResult ContractResponse × WasmState) :=
  match lookupA st.vms contractAddress with
  | none => .error (.noVM contractAddress)
  | some vm =>
    let env := getExecutionEnv ctx contractAddress
    let out := (ctx.vmsem vm.wasmCode).replyFn env replyMsg vm.storage
    let st := { st with vms := setA st.vms contractAddress { vm with storage := out.2 } }
    let st := setContractStorage st contractAddress out.2
    .ok (out.1, st)

/-- `query` (`wasm.ts:629`): requires a cached VM (throws otherwise); runs
the read-only `query` entry point and decodes the result.  No snapshot is
taken, nothing is written back: the returned state is the input state. -/
def query (ctx : SimContext) (st : WasmState) (contractAddress : String)
    (queryMsg : Msg) :
    Except EngineError (Except String Binary × WasmState) :=
  match lookupA st.vms contractAddress with
  | none => .error (.noVM contractAddress)
  | some vm =>
    let env := getExecutionEnv ctx contractAddress
    match (ctx.vmsem vm.wasmCode).queryFn env queryMsg vm.storage with
    | .error e => .ok (.error e, st)
    | .ok v => .ok (.ok (fromBinary v), st)

/-- `buildAppResponse` (`wasm.ts:641`): the custom event, then — only when
the contract reported attributes — a `wasm` event carrying
`(_contract_addr, A)` and the attributes, then one `wasm-<type>` event per
contract event; `data` passes through. -/
def buildAppResponse (contract : String) (customEvent : Event)
    (response : ContractResponse) : AppResponse :=
  let addrAttr : KVAttribute := { key := "_contract_addr", value := contract }
  let appEvents := [customEvent]
  let wasmEvent : Event := { type := "wasm", attributes := addrAttr :: response.attributes }
  let appEvents :=
    if response.attributes.length > 0 then appEvents ++ [wasmEvent] else appEvents
  let appEvents := appEvents ++ response.events.map (fun event =>
    { type := "wasm-" ++ event.type, attributes := addrAttr :: event.attributes })
  { events := appEvents, data := response.data }

/-- Modelled from the spec (§6): `toBinary` from `../util` JSON-encodes a
queried `Result` (`smart` queries return `Ok(encode(result))`); serialization
is out of scope, so an injective tagged rendering stands in. -/
def encodeQueryResult : Except String Binary → Binary
  | .ok v => "ok:" ++ v
  | .error e => "err:" ++ e

/-- Modelled from the spec (§6): JSON encoding of a `ContractInfoResponse`
for `contract_info` queries; serialization is out of scope, so an injective
rendering stands in. -/
def encodeContractInfoResponse (r : ContractInfoResponse) : Binary :=
  "code_id:" ++ toString r.code_id ++ ";creator:" ++ r.creator ++
    ";admin:" ++ (r.admin.getD "null") ++ ";ibc_port:" ++ (r.ibc_port.getD "null") ++
    ";pinned:" ++ (if r.pinned then "true" else "false")

/-- `handleQuery` (`wasm.ts:712`).  In the `raw` branch the source guards
`if (!storage)`, but `getContractStorage` ends in `?? Map()` and a JS `Map`
object — empty included — is truthy, so the guard can never fire; it is kept
here as a branch on the constant `false`. -/
def handleQuery (ctx : SimContext) (st : WasmState) :
    WasmQuery → Except EngineError (Except String Binary × WasmState)
  | .smart q =>
    match query ctx st q.contract_addr (fromBinary q.msg) with
    | .error ex => .error ex
    | .ok (r, st) => .ok (.ok (encodeQueryResult r), st)
  | .raw q =>
    let storage := getContractStorage st.store q.contract_addr
    if (false : Bool) then
      .ok (.error ("Contract " ++ q.contract_addr ++ " not found"), st)
    else
      match lookupA storage q.key with
      | none => .ok (.error ("Key " ++ q.key ++ " not found"), st)
      | some value => .ok (.ok value, st)
  | .contract_info q =>
    match getContractInfo st.store q.contract_addr with
    | none => .ok (.error ("Contract " ++ q.contract_addr ++ " not found"), st)
    | some info =>
      let resp : ContractInfoResponse :=
        { code_id := info.codeId, creator := info.creator, admin := info.admin,
          ibc_port := none, pinned := true }
      .ok (.ok (encodeContractInfoResponse resp), st)
  | .unknown => .ok (.error "Unknown wasm query", st)

/-! ## The recursive core (`wasm.ts:271–710`)

The source recurses without bound through the message router
(`executeSubmsg → chain.handleMsg → executeContract/instantiateContract →
handleContractResponse → executeSubmsg …`); the embedding indexes the
recursion by a fuel parameter that every mutual call decrements (except the
purely structural walk down a submessage list). -/

mutual

/-- `instantiateContract` (`wasm.ts:271`): snapshot the store, register the
instance, run the VM's `instantiate`.  On a VM error: `lastInstanceId -= 1`,
delete the `ContractInfo`, restore `chain.store = snapshot`, record a trace
entry, return `Err`.  On success: synthesize the `instantiate` custom event,
hand the submessages to `handleContractResponse`, record the trace entry
(sub-trace included), and return its result — note: no further revert on a
submessage failure. -/
def instantiateContractF (ctx : SimContext) (fuel : Nat) (st : WasmState)
    (sender : String) (funds : List Coin) (codeId : Nat)
    (instantiateMsg : Msg) : CallOutcome :=
  match fuel with
  | 0 => .error .outOfFuel
  | n + 1 =>
    let snapshot := st.store
    let reg := registerContractInstance ctx st sender codeId
    let contractAddress := reg.1
    match callInstantiate ctx reg.2 sender funds contractAddress instantiateMsg with
    | .error ex => .error ex
    | .ok (.error err, st₂) =>
      let st₃ := { st₂ with lastInstanceId := st₂.lastInstanceId - 1 }
      let st₄ := deleteContractInfo st₃ contractAddress
      let st₅ := { st₄ with store := snapshot }
      let result : CallResult := .error err
      let entry := TraceLog.instantiate contractAddress instantiateMsg
        (.error err) { sender := sender, funds := funds }
        (getExecutionEnv ctx contractAddress) none snapshot result
      .ok (result, st₅, [entry])
    | .ok (.ok response, st₂) =>
      let addrAttr : KVAttribute := { key := "_contract_address", value := contractAddress }
      let codeAttr : KVAttribute := { key := "code_id", value := toString codeId }
      let customEvent : Event := { type := "instantiate", attributes := [addrAttr, codeAttr] }
      let res := buildAppResponse contractAddress customEvent response
      match handleContractResponseF ctx n st₂ contractAddress response.messages res with
      | .error ex => .error ex
      | .ok (result, st₃, subtrace) =>
        let entry := TraceLog.instantiate contractAddress instantiateMsg
          (.ok response) { sender := sender, funds := funds }
          (getExecutionEnv ctx contractAddress) (some subtrace) st₃.store result
        .ok (result, st₃, [entry])
termination_by structural fuel

/-- `executeContract` (`wasm.ts:383`): snapshot, run the VM's `execute`
against the cached VM.  On a VM error: restore `chain.store = snapshot` and
return `Err`.  On success: synthesize the `execute` custom event and defer to
`handleContractResponse` (again with no further revert on submessage
failure). -/
def executeContractF (ctx : SimContext) (fuel : Nat) (st : WasmState)
    (sender : String) (funds : List Coin) (contractAddress : String)
    (executeMsg : Msg) : CallOutcome :=
  match fuel with
  | 0 => .error .outOfFuel
  | n + 1 =>
    let snapshot := st.store
    match callExecute ctx st sender funds contractAddress executeMsg with
    | .error ex => .error ex
    | .ok (.error err, st₁) =>
      let st₂ := { st₁ with store := snapshot }
      let result : CallResult := .error err
      let entry := TraceLog.execute contractAddress executeMsg (.error err)
        { sender := sender, funds := funds }
        (getExecutionEnv ctx contractAddress) none snapshot result
      .ok (result, st₂, [entry])
    | .ok (.ok response, st₁) =>
      let addrAttr : KVAttribute := { key := "_contract_addr", value := contractAddress }
      let customEvent : Event := { type := "execute", attributes := [addrAttr] }
      let res := buildAppResponse contractAddress customEvent response
      match handleContractResponseF ctx n st₁ contractAddress response.messages res with
      | .error ex => .error ex
      | .ok (result, st₂, subtrace) =>
        let entry := TraceLog.execute contractAddress executeMsg (.ok response)
          { sender := sender, funds := funds }
          (getExecutionEnv ctx contractAddress) (some subtrace) st₂.store result
        .ok (result, st₂, [entry])
termination_by structural fuel

/-- `reply` (`wasm.ts:567`): run the VM's `reply` entry point.  Unlike
execute/instantiate, a VM error takes *no* snapshot revert here (the
enclosing `handleContractResponse` revert covers it); success synthesizes the
`reply` custom event with the `mode` attribute and defers to
`handleContractResponse`. -/
def replyF (ctx : SimContext) (fuel : Nat) (st : WasmState)
    (contractAddress : String) (replyMsg : ReplyMsg) : CallOutcome :=
  match fuel with
  | 0 => .error .outOfFuel
  | n + 1 =>
    match callReply ctx st contractAddress replyMsg with
    | .error ex => .error ex
    | .ok (.error err, st₁) =>
      let result : CallResult := .error err
      let entry := TraceLog.reply contractAddress replyMsg (.error err)
        (getExecutionEnv ctx contractAddress) none st₁.store result
      .ok (result, st₁, [entry])
    | .ok (.ok response, st₁) =>
      let addrAttr : KVAttribute := { key := "_contract_addr", value := contractAddress }
      let mode := match replyMsg.result with
        | .ok _ => "handle_success"
        | .error _ => "handle_failure"
      let modeAttr : KVAttribute := { key := "mode", value := mode }
      let customEvent : Event := { type := "reply", attributes := [addrAttr, modeAttr] }
      let res := buildAppResponse contractAddress customEvent response
      match handleContractResponseF ctx n st₁ contractAddress response.messages res with
      | .error ex => .error ex
      | .ok (result, st₂, subtrace) =>
        let entry := TraceLog.reply contractAddress replyMsg (.ok response)
          (getExecutionEnv ctx contractAddress) (some subtrace) st₂.store result
        .ok (result, st₂, [entry])
termination_by structural fuel

/-- `handleMsg` (`wasm.ts:681`) — also standing for the router
`chain.handleMsg` consumed by `executeSubmsg` (modelled from the spec §6: the
router's wasm variant branches into `executeContract` / `instantiateContract`
after decoding the inner message; other modules are out of scope §1).  An
unknown variant throws `Unknown wasm message`. -/
def handleMsgF (ctx : SimContext) (fuel : Nat) (st : WasmState)
    (sender : String) (msg : WasmMsg) : CallOutcome :=
  match fuel with
  | 0 => .error .outOfFuel
  | n + 1 =>
    match msg with
    | .execute e =>
      executeContractF ctx n st sender e.funds e.contract_addr (fromBinary e.msg)
    | .instantiate i =>
      instantiateContractF ctx n st sender i.funds i.code_id (fromBinary i.msg)
    | .unknown => .error .unknownWasmMsg
termination_by structural fuel

/-- `executeSubmsg` (`wasm.ts:483`): route the submessage through the router,
then apply the reply-on matrix (spec §4.5).  On success with `Success` or
`Always`, call `reply` with the `Ok` payload (reply data wins if non-null,
events are appended); otherwise drop the data.  On failure with `Error` or
`Always`, call `reply` with the `Err` payload — a successful reply swallows
the original failure, a failed reply's error is returned; otherwise the
failure bubbles.  `gas_limit` is unused. -/
def executeSubmsgF (ctx : SimContext) (fuel : Nat) (st : WasmState)
    (contractAddress : String) (message : SubMsg) : CallOutcome :=
  match fuel with
  | 0 => .error .outOfFuel
  | n + 1 =>
    match handleMsgF ctx n st contractAddress message.msg with
    | .error ex => .error ex
    | .ok (.ok val, st₁, tr₁) =>
      if message.reply_on = ReplyOn.success ∨ message.reply_on = ReplyOn.always then
        let replyMsg : ReplyMsg :=
          { id := message.id, result := .ok { events := val.events, data := val.data } }
        match replyF ctx n st₁ contractAddress replyMsg with
        | .error ex => .error ex
        | .ok (.error e, st₂, tr₂) => .ok (.error e, st₂, tr₁ ++ tr₂)
        | .ok (.ok rv, st₂, tr₂) =>
          let data := match rv.data with
            | some d => some d
            | none => val.data
          let events := val.events ++ rv.events
          .ok (.ok { events := events, data := data }, st₂, tr₁ ++ tr₂)
      else
        .ok (.ok { events := val.events, data := none }, st₁, tr₁)
    | .ok (.error err, st₁, tr₁) =>
      if message.reply_on = ReplyOn.error ∨ message.reply_on = ReplyOn.always then
        let replyMsg : ReplyMsg := { id := message.id, result := .error err }
        match replyF ctx n st₁ contractAddress replyMsg with
        | .error ex => .error ex
        | .ok (.error e, st₂, tr₂) => .ok (.error e, st₂, tr₁ ++ tr₂)
        | .ok (.ok rv, st₂, tr₂) =>
          .ok (.ok { events := rv.events, data := rv.data }, st₂, tr₁ ++ tr₂)
      else
        .ok (.error err, st₁, tr₁)
termination_by structural fuel

/-- The submessage loop of `handleContractResponse` (`wasm.ts:467–478`),
with the entry snapshot made explicit: process submessages in order; on the
first `Err`, reassign `chain.store := snapshot` (discarding every earlier
sibling's mutations) and return that `Err`; on success, append the
submessage's events and let non-null data overwrite (`last-writer-wins`). -/
def hcrAux (ctx : SimContext) (fuel : Nat) (snapshot : ChainStore)
    (st : WasmState) (contractAddress : String) (res : AppResponse)
    (messages : List SubMsg) : CallOutcome :=
  match messages with
  | [] => .ok (.ok { events := res.events, data := res.data }, st, [])
  | message :: rest =>
    match fuel with
    | 0 => .error .outOfFuel
    | n + 1 =>
      match executeSubmsgF ctx n st contractAddress message with
      | .error ex => .error ex
      | .ok (.error e, st₁, tr₁) =>
        .ok (.error e, { st₁ with store := snapshot }, tr₁)
      | .ok (.ok subres, st₁, tr₁) =>
        let res := { events := res.events ++ subres.events,
                     data := match subres.data with
                       | some d => some d
                       | none => res.data }
        match hcrAux ctx n snapshot st₁ contractAddress res rest with
        | .error ex => .error ex
        | .ok (out, st₂, tr₂) => .ok (out, st₂, tr₁ ++ tr₂)
termination_by structural fuel

/-- `handleContractResponse` (`wasm.ts:460`): snapshot `chain.store` at
entry, then run the submessage loop against that snapshot. -/
def handleContractResponseF (ctx : SimContext) (fuel : Nat) (st : WasmState)
    (contractAddress : String) (messages : List SubMsg) (res : AppResponse) :
    CallOutcome :=
  match fuel with
  | 0 => .error .outOfFuel
  | n + 1 => hcrAux ctx n st.store st contractAddress res messages
termination_by structural fuel

end

/-! ## Outcome projections

Small total projections of a `CallOutcome`, used to state concrete
evaluations of the engine without spelling out whole states and traces. -/

/-- The error string of a settled `Err` outcome, if that is what happened. -/
def outcomeErr : CallOutcome → Option String
  | .ok (.error e, _, _) => some e
  | _ => none

/-- The `AppResponse` of a settled `Ok` outcome, if that is what happened. -/
def outcomeOk : CallOutcome → Option AppResponse
  | .ok (.ok r, _, _) => some r
  | _ => none

/-- The final module state of a non-thrown outcome. -/
def outcomeState : CallOutcome → Option WasmState
  | .ok (_, st, _) => some st
  | .error _ => none

/-! ## Concrete worlds

Closed contexts and states used to evaluate the engine on the spec's
scenarios.  VM behaviours are the test contracts of the scenarios in §8. -/

/-- A contract that emits one event and data `"d"` from its `reply` entry
point and fails every other entry point: the reply handler of the
`reply_on = Always` scenario (spec §8.4). -/
def behParent : VMBehavior :=
  { instantiateFn := fun _ _ _ sto => (.error "parent-inst", sto),
    executeFn := fun _ _ _ sto => (.error "parent-exec", sto),
    replyFn := fun _ _ sto =>
      (.ok { messages := [], attributes := [],
             events := [{ type := "t1", attributes := [] }],
             data := some "d" }, sto),
    queryFn := fun _ _ _ => .ok "qv" }

/-- A contract whose `instantiate` fails with `"boom"` and whose `execute`
fails with `"x"`. -/
def behFailChild : VMBehavior :=
  { instantiateFn := fun _ _ _ sto => (.error "boom", sto),
    executeFn := fun _ _ _ sto => (.error "x", sto),
    replyFn := fun _ _ sto => (.error "no-reply", sto),
    queryFn := fun _ _ _ => .error "no-query" }

/-- A contract whose `execute` writes `"a" → "1"` into its storage and
succeeds with one event and data `"okdata"` (the successful first sibling of
spec §8.3). -/
def behOkChild : VMBehavior :=
  { instantiateFn := fun _ _ _ sto => (.error "ok-inst", sto),
    executeFn := fun _ _ _ sto =>
      (.ok { messages := [], attributes := [],
             events := [{ type := "ok-ev", attributes := [] }],
             data := some "okdata" }, setA sto "a" "1"),
    replyFn := fun _ _ sto => (.error "ok-reply", sto),
    queryFn := fun _ _ _ => .error "ok-query" }

/-- A contract whose `execute` on message `"wf"` writes `"k" → "v"` and then
fails, and on any other message succeeds reporting the value it reads at key
`"k"` as its data: it makes the VM's working storage observable. -/
def behWriteFail : VMBehavior :=
  { instantiateFn := fun _ _ _ sto => (.error "wf-inst", sto),
    executeFn := fun _ _ m sto =>
      if m = "wf" then (.error "boom", setA sto "k" "v")
      else (.ok { messages := [], attributes := [], events := [],
                  data := lookupA sto "k" }, sto),
    replyFn := fun _ _ sto => (.error "wf-reply", sto),
    queryFn := fun _ _ _ => .error "wf-query" }

/-- Execute-scenario context: codes 1–4 are `behParent`, `behFailChild`,
`behOkChild`, `behWriteFail`. -/
def ctxA : SimContext :=
  { hrp := "cosmwasm", height := 1, time := 0, chainId := "test-1",
    vmsem := fun c =>
      if c = 1 then behParent
      else if c = 2 then behFailChild
      else if c = 3 then behOkChild
      else behWriteFail }

/-- Execute-scenario state: contracts `p`, `cfail`, `cok`, `cwf` are
registered, pinned in the VM cache, and have empty storage. -/
def stA : WasmState :=
  { lastCodeId := 4, lastInstanceId := 4,
    vms := [("p", { wasmCode := 1, storage := [] }),
            ("cfail", { wasmCode := 2, storage := [] }),
            ("cok", { wasmCode := 3, storage := [] }),
            ("cwf", { wasmCode := 4, storage := [] })],
    store :=
      { codes := [(1, { creator := "alice", wasmCode := 1 }),
                  (2, { creator := "alice", wasmCode := 2 }),
                  (3, { creator := "alice", wasmCode := 3 }),
                  (4, { creator := "alice", wasmCode := 4 })],
        contracts :=
          [("p", { codeId := 1, creator := "alice", admin := none, label := "", created := 1 }),
           ("cfail", { codeId := 2, creator := "alice", admin := none, label := "", created := 1 }),
           ("cok", { codeId := 3, creator := "alice", admin := none, label := "", created := 1 }),
           ("cwf", { codeId := 4, creator := "alice", admin := none, label := "", created := 1 })],
        contractStorage := [("p", []), ("cfail", []), ("cok", []), ("cwf", [])] } }

/-- A contract whose `instantiate` succeeds while emitting one submessage
that instantiates code 2 (which fails with `"boom"`): the nested-failure
scenario for `instantiateContract`. -/
def behEmitFail : VMBehavior :=
  { instantiateFn := fun _ _ _ sto =>
      (.ok { messages :=
               [{ id := 0,
                  msg := WasmMsg.instantiate
                    { admin := none, code_id := 2, msg := "m2", funds := [], label := "" },
                  gas_limit := none, reply_on := ReplyOn.never }],
             attributes := [], events := [], data := none }, sto),
    executeFn := fun _ _ _ sto => (.error "emit-exec", sto),
    replyFn := fun _ _ sto => (.error "emit-reply", sto),
    queryFn := fun _ _ _ => .error "emit-query" }

/-- Instantiate-scenario context: code 1 is `behEmitFail`, everything else is
`behFailChild`. -/
def ctx1 : SimContext :=
  { hrp := "cosmwasm", height := 1, time := 0, chainId := "test-1",
    vmsem := fun c => if c = 1 then behEmitFail else behFailChild }

/-- Instantiate-scenario state: codes 1 and 2 uploaded, no instances yet. -/
def st1 : WasmState :=
  { lastCodeId := 2, lastInstanceId := 0, vms := [],
    store :=
      { codes := [(1, { creator := "alice", wasmCode := 1 }),
                  (2, { creator := "alice", wasmCode := 2 })],
        contracts := [], contractStorage := [] } }

/-- The empty module state. -/
def stEmpty : WasmState :=
  { lastCodeId := 0, lastInstanceId := 0, vms := [],
    store := { codes := [], contracts := [], contractStorage := [] } }

/-- A state with a registered contract whose code id `99` has no stored
`CodeInfo`. -/
def stMissingCode : WasmState :=
  { lastCodeId := 0, lastInstanceId := 0, vms := [],
    store :=
      { codes := [],
        contracts :=
          [("ghost", { codeId := 99, creator := "a", admin := none, label := "", created := 0 })],
        contractStorage := [] } }

/-- The submessage of spec §8.3's successful first sibling: execute `cok`,
`reply_on = Never`. -/
def mOk : SubMsg :=
  { id := 7, msg := WasmMsg.execute { contract_addr := "cok", msg := "w", funds := [] },
    gas_limit := none, reply_on := ReplyOn.never }

/-- The failing sibling: execute `cfail` (which fails with `"x"`),
`reply_on = Never`. -/
def mFail : SubMsg :=
  { id := 0, msg := WasmMsg.execute { contract_addr := "cfail", msg := "m", funds := [] },
    gas_limit := none, reply_on := ReplyOn.never }

/-- Spec §8.4's submessage: execute `cfail`, `reply_on = Always`. -/
def mCatch : SubMsg :=
  { id := 1, msg := WasmMsg.execute { contract_addr := "cfail", msg := "m", funds := [] },
    gas_limit := none, reply_on := ReplyOn.always }

/-- A successful submessage with `reply_on = Never` (spec §8, boundary
behaviours). -/
def mDrop : SubMsg :=
  { id := 2, msg := WasmMsg.execute { contract_addr := "cok", msg := "w", funds := [] },
    gas_limit := none, reply_on := ReplyOn.never }

/-- A submessage whose inner message matches no known variant: the router
throws on it, and `reply_on = Always` must not catch the exception. -/
def mUnknown : SubMsg :=
  { id := 9, msg := WasmMsg.unknown, gas_limit := none, reply_on := ReplyOn.always }

/-- The empty `AppResponse` accumulator. -/
def res0 : AppResponse := { events := [], data := none }

/-- The event assembly exactly as the spec words it (§4.4): the custom event
`E`; then, if and only if `R.attributes` is non-empty, one `wasm` event whose
first attribute is `(_contract_addr, A)` followed by the contract attributes;
then one `wasm-<t>` event per contract event in emission order, each headed
by `(_contract_addr, A)`; data passes through.  Stated from the spec's words
to be compared against `buildAppResponse` from the source. -/
def buildAppResponseSpec (A : String) (E : Event) (R : ContractResponse) : AppResponse :=
  let addrAttr : KVAttribute := { key := "_contract_addr", value := A }
  let wasmAgg : List Event :=
    if R.attributes = [] then []
    else [{ type := "wasm", attributes := addrAttr :: R.attributes }]
  let typed : List Event := R.events.map (fun e =>
    { type := "wasm-" ++ e.type, attributes := addrAttr :: e.attributes })
  { events := E :: (wasmAgg ++ typed), data := R.data }

/-! ## Helper lemmas -/

set_option maxRecDepth 4000000

/-- Sanity check of the SHA-256 embedding against the FIPS 180-2 test
vector for `"abc"`. -/
theorem sha256_abc :
    sha256 (utf8 "abc") =
      [0xba, 0x78, 0x16, 0xbf, 0x8f, 0x01, 0xcf, 0xea, 0x41, 0x41, 0x40, 0xde,
       0x5d, 0xae, 0x22, 0x23, 0xb0, 0x03, 0x61, 0xa3, 0x96, 0x17, 0x7a, 0x9c,
       0xb4, 0x10, 0xff, 0x61, 0xf2, 0x00, 0x15, 0xad] := by
  decide

/-- `buildVM` never changes `lastInstanceId`: it only touches the VM cache. -/
theorem buildVM_lastInstanceId {st : WasmState} {addr : String}
    {vm : VMInstance} {st' : WasmState} (h : buildVM st addr = .ok (vm, st')) :
    st'.lastInstanceId = st.lastInstanceId := by
  unfold buildVM at h
  split at h
  · cases h; rfl
  · split at h
    · cases h
    · split at h
      · cases h
      · cases h; rfl

/-- `buildVM` never changes the chain store. -/
theorem buildVM_store {st : WasmState} {addr : String}
    {vm : VMInstance} {st' : WasmState} (h : buildVM st addr = .ok (vm, st')) :
    st'.store = st.store := by
  unfold buildVM at h
  split at h
  · cases h; rfl
  · split at h
    · cases h
    · split at h
      · cases h
      · cases h; rfl

/-- `callInstantiate` never changes `lastInstanceId`: it only updates the VM
cache and `contractStorage`. -/
theorem callInstantiate_lastInstanceId {ctx : SimContext} {st : WasmState}
    {sender : String} {funds : List Coin} {addr : String} {msg : Msg}
    {r : RustResult ContractResponse} {st' : WasmState}
    (h : callInstantiate ctx st sender funds addr msg = .ok (r, st')) :
    st'.lastInstanceId = st.lastInstanceId := by
  unfold callInstantiate at h
  split at h
  · cases h
  next vm st₀ heq =>
    cases h
    simpa [setContractStorage] using buildVM_lastInstanceId heq

/-- The submessage loop with an explicit snapshot: whenever it settles with
`Err`, the final state's store is exactly the snapshot. -/
theorem hcrAux_err_store {ctx : SimContext} {snap : ChainStore} {addr : String} :
    ∀ (fuel : Nat) (msgs : List SubMsg) (st : WasmState) (res : AppResponse)
      (e : String) (st' : WasmState) (tr : List TraceLog),
      hcrAux ctx fuel snap st addr res msgs = .ok (.error e, st', tr) →
      st'.store = snap := by
  intro fuel
  induction fuel with
  | zero =>
    intro msgs st res e st' tr h
    cases msgs with
    | nil => simp [hcrAux] at h
    | cons m rest => simp [hcrAux] at h
  | succ n ih =>
    intro msgs st res e st' tr h
    cases msgs with
    | nil => simp [hcrAux] at h
    | cons m rest =>
      simp only [hcrAux] at h
      split at h
      · cases h
      · cases h; rfl
      · split at h
        · cases h
        next heq =>
          cases h
          exact ih _ _ _ _ _ _ heq

/-! ## Claim theorems -/

/-- C1, amended: when `instantiateContract` returns `Err` because the VM's
`instantiate` entry point reported an error, the chain store afterwards is
byte-identical to the pre-call snapshot (in particular no `ContractInfo` and
no storage entry beyond those of the snapshot) and `lastInstanceId` has its
pre-call value.  The amendment restricts the claim to VM-reported
instantiate errors: an `Err` caused by a failing emitted submessage does not
restore the pre-call snapshot (see the counterexample). -/
theorem instantiate_vm_error_rollback (ctx : SimContext) (n : Nat)
    (st : WasmState) (sender : String) (funds : List Coin) (codeId : Nat)
    (msg : Msg) (e : String) (st₂ : WasmState)
    (hcall : callInstantiate ctx (registerContractInstance ctx st sender codeId).2
      sender funds (registerContractInstance ctx st sender codeId).1 msg =
      .ok (.error e, st₂)) :
    ∃ st' tr,
      instantiateContractF ctx (n + 1) st sender funds codeId msg = .ok (.error e, st', tr) ∧
      st'.store = st.store ∧ st'.lastInstanceId = st.lastInstanceId := by
  have hreg : (registerContractInstance ctx st sender codeId).2.lastInstanceId =
      st.lastInstanceId + 1 := rfl
  have hli : st₂.lastInstanceId = st.lastInstanceId + 1 := by
    rw [callInstantiate_lastInstanceId hcall, hreg]
  simp only [instantiateContractF, hcall]
  refine ⟨_, _, rfl, rfl, ?_⟩
  simp [deleteContractInfo, hli]

/-- C1, counterexample: a call to `instantiateContract` that returns `Err`
(here: the VM instantiate succeeds but its emitted submessage fails with
`"boom"`) after which the chain store is not byte-identical to the pre-call
snapshot — the new contract stays registered and `lastInstanceId` stays
incremented. -/
theorem instantiate_submsg_failure_keeps_state :
    outcomeErr (instantiateContractF ctx1 20 st1 "alice" [] 1 "m") = some "boom"
  ∧ (outcomeState (instantiateContractF ctx1 20 st1 "alice" [] 1 "m")).map
      (fun s => s.store.contracts.length) = some 1
  ∧ st1.store.contracts.length = 0
  ∧ (outcomeState (instantiateContractF ctx1 20 st1 "alice" [] 1 "m")).map
      WasmState.lastInstanceId = some 1
  ∧ st1.lastInstanceId = 0 := by
  refine ⟨by decide, by decide, rfl, by decide, rfl⟩

/-- C1, witness: a concrete world in which the VM's instantiate fails with
`"boom"` and the rollback theorem applies. -/
theorem instantiate_vm_error_rollback_witness :
    ∃ st' tr,
      instantiateContractF ctx1 20 st1 "alice" [] 2 "m" = .ok (.error "boom", st', tr) ∧
      st'.store = st1.store ∧ st'.lastInstanceId = st1.lastInstanceId :=
  instantiate_vm_error_rollback ctx1 19 st1 "alice" [] 2 "m" "boom" _ rfl

/-- C2: whenever `handleContractResponse` settles with `Err` — i.e. some
submessage returned `Err` — the final store is exactly the snapshot taken at
entry, discarding the mutations of every earlier successful sibling, and the
failing submessage's `Err` is returned to the caller (second conjunct: the
error value out of `executeSubmsg` is passed through unchanged, with the
store reset). -/
theorem handleContractResponse_sibling_revert (ctx : SimContext)
    (st : WasmState) (addr : String) :
    (∀ (n : Nat) (msgs : List SubMsg) (res : AppResponse) (e : String)
       (st' : WasmState) (tr : List TraceLog),
       handleContractResponseF ctx n st addr msgs res = .ok (.error e, st', tr) →
       st'.store = st.store)
  ∧ (∀ (n : Nat) (m : SubMsg) (rest : List SubMsg) (res : AppResponse)
       (e : String) (st₁ : WasmState) (tr₁ : List TraceLog),
       executeSubmsgF ctx n st addr m = .ok (.error e, st₁, tr₁) →
       handleContractResponseF ctx (n + 2) st addr (m :: rest) res =
         .ok (.error e, { st₁ with store := st.store }, tr₁)) := by
  constructor
  · intro n msgs res e st' tr h
    cases n with
    | zero => simp [handleContractResponseF] at h
    | succ k =>
      simp only [handleContractResponseF] at h
      exact hcrAux_err_store _ _ _ _ _ _ _ h
  · intro n m rest res e st₁ tr₁ h
    simp only [handleContractResponseF, hcrAux, h]

/-- C2, witness: two sibling submessages, the first succeeds (writing
`"a" → "1"` into `cok`'s storage), the second fails with `"x"`; the call
settles with `Err "x"` and the store is the entry snapshot. -/
theorem handleContractResponse_sibling_revert_witness :
    ∃ st' tr,
      handleContractResponseF ctxA 20 stA "p" [mOk, mFail] res0 = .ok (.error "x", st', tr) ∧
      st'.store = stA.store := by
  refine ⟨_, _, rfl, ?_⟩
  exact (handleContractResponse_sibling_revert ctxA stA "p").1 20 [mOk, mFail] res0 "x" _ _ rfl

/-- C3: when the routed submessage fails with `e` and `reply_on` is `Error`
or `Always`, `reply(addr, {id, result: Err e})` is invoked on the state and
trace left by the router; if that reply succeeds, `executeSubmsg` returns
`Ok` with exactly the reply's events and data (the original error `e` is
swallowed); if the reply fails, the reply's error is returned. -/
theorem executeSubmsg_error_reply_swallows (ctx : SimContext) (n : Nat)
    (st : WasmState) (addr : String) (m : SubMsg) (e : String)
    (st₁ : WasmState) (tr₁ : List TraceLog)
    (hro : m.reply_on = ReplyOn.error ∨ m.reply_on = ReplyOn.always)
    (hmsg : handleMsgF ctx n st addr m.msg = .ok (.error e, st₁, tr₁)) :
    (∀ rv st₂ tr₂,
       replyF ctx n st₁ addr { id := m.id, result := .error e } = .ok (.ok rv, st₂, tr₂) →
       executeSubmsgF ctx (n + 1) st addr m =
         .ok (.ok { events := rv.events, data := rv.data }, st₂, tr₁ ++ tr₂))
  ∧ (∀ e2 st₂ tr₂,
       replyF ctx n st₁ addr { id := m.id, result := .error e } = .ok (.error e2, st₂, tr₂) →
       executeSubmsgF ctx (n + 1) st addr m = .ok (.error e2, st₂, tr₁ ++ tr₂)) := by
  constructor
  · intro rv st₂ tr₂ hr
    simp only [executeSubmsgF, hmsg]
    rw [if_pos hro]
    simp only [hr]
  · intro e2 st₂ tr₂ hr
    simp only [executeSubmsgF, hmsg]
    rw [if_pos hro]
    simp only [hr]

/-- C3, witness: spec §8.4 — the child fails with `"x"`, `reply_on = Always`,
the reply handler succeeds with one event and data `"d"`; the parent sees
`Ok` with the reply's events and data. -/
theorem executeSubmsg_error_reply_swallows_witness :
    ∃ st₁ tr₁ rv st₂ tr₂,
      handleMsgF ctxA 19 stA "p" mCatch.msg = .ok (.error "x", st₁, tr₁) ∧
      replyF ctxA 19 st₁ "p" { id := mCatch.id, result := .error "x" } = .ok (.ok rv, st₂, tr₂) ∧
      rv.data = some "d" ∧
      executeSubmsgF ctxA 20 stA "p" mCatch =
        .ok (.ok { events := rv.events, data := rv.data }, st₂, tr₁ ++ tr₂) := by
  refine ⟨_, _, _, _, _, rfl, rfl, rfl, ?_⟩
  exact (executeSubmsg_error_reply_swallows ctxA 19 stA "p" mCatch "x" _ _
    (Or.inr rfl) rfl).1 _ _ _ rfl

/-- C4: when the routed submessage succeeds and `reply_on` is `Never` or
`Error`, the result is `Ok` with the submessage's events preserved and its
data replaced by `null`; the state and trace are exactly those left by the
router, so the `reply` entry point is not invoked. -/
theorem executeSubmsg_success_drops_data (ctx : SimContext) (n : Nat)
    (st : WasmState) (addr : String) (m : SubMsg) (v : AppResponse)
    (st₁ : WasmState) (tr₁ : List TraceLog)
    (hro : m.reply_on = ReplyOn.never ∨ m.reply_on = ReplyOn.error)
    (hmsg : handleMsgF ctx n st addr m.msg = .ok (.ok v, st₁, tr₁)) :
    executeSubmsgF ctx (n + 1) st addr m =
      .ok (.ok { events := v.events, data := none }, st₁, tr₁) := by
  have hcond : ¬(m.reply_on = ReplyOn.success ∨ m.reply_on = ReplyOn.always) := by
    rcases hro with h | h <;> simp [h]
  simp only [executeSubmsgF, hmsg]
  rw [if_neg hcond]

/-- C4, witness: a successful `reply_on = Never` submessage whose inner call
returns data `"okdata"`; the parent sees the events with data `null`, state
and trace untouched by any reply. -/
theorem executeSubmsg_success_drops_data_witness :
    ∃ v st₁ tr₁,
      handleMsgF ctxA 19 stA "p" mDrop.msg = .ok (.ok v, st₁, tr₁) ∧
      v.data = some "okdata" ∧
      executeSubmsgF ctxA 20 stA "p" mDrop =
        .ok (.ok { events := v.events, data := none }, st₁, tr₁) := by
  refine ⟨_, _, _, rfl, rfl, ?_⟩
  exact executeSubmsg_success_drops_data ctxA 19 stA "p" mDrop _ _ _ (Or.inl rfl) rfl

/-- C5, code bug: `numberToBigEndianUint64` writes its argument big-endian
into bytes 0–3 and zeros bytes 4–7, which is not the 8-byte big-endian
encoding `be_u64`; consequently `buildContractAddress 1 1` hashes the payload
with the wrong encoding and differs from the address the spec (and the
function's own name) prescribe. -/
theorem buildContractAddress_not_be_u64 :
    numberToBigEndianUint64 1 = [0, 0, 0, 1, 0, 0, 0, 0]
  ∧ beU64 1 = [0, 0, 0, 0, 0, 0, 0, 1]
  ∧ buildContractAddress 1 1 =
      (sha256 (sha256 (utf8 "module") ++ (utf8 "wasm" ++ [0]) ++
        (numberToBigEndianUint64 1 ++ numberToBigEndianUint64 1))).take 20
  ∧ buildContractAddress 1 1 ≠
      (sha256 (sha256 (utf8 "module") ++ (utf8 "wasm" ++ [0]) ++
        (beU64 1 ++ beU64 1))).take 20 := by
  refine ⟨by decide, by decide, by decide, by decide⟩

/-- C6, code bug: after a failure-induced revert, the next `execute` against
the same contract observes the cached VM's dict — which still holds the
reverted call's writes — not `contractStorage[addr]` in the chain store.
Here the first execute writes `k → v` and fails (`"boom"`, store reverted:
`contractStorage["cwf"]` is empty), yet the second execute reads `"v"`. -/
theorem vm_cache_stale_after_revert :
    outcomeErr (executeContractF ctxA 2 stA "alice" [] "cwf" "wf") = some "boom"
  ∧ (outcomeState (executeContractF ctxA 2 stA "alice" [] "cwf" "wf")).map
      (fun s => getContractStorage s.store "cwf") = some []
  ∧ ((outcomeState (executeContractF ctxA 2 stA "alice" [] "cwf" "wf")).bind
      (fun s => (outcomeOk (executeContractF ctxA 2 s "alice" [] "cwf" "read")).bind
        AppResponse.data)) = some "v" := by
  refine ⟨by decide, by decide, by decide⟩

/-- C7: `buildAppResponse` produces exactly the spec's event assembly — the
custom event first; then, if and only if the contract attributes are
non-empty, one `wasm` event headed by `(_contract_addr, A)`; then one
`wasm-<t>` event per contract event in emission order, each headed by
`(_contract_addr, A)`; data passes through unchanged. -/
theorem buildAppResponse_event_order (contract : String) (customEvent : Event)
    (response : ContractResponse) :
    buildAppResponse contract customEvent response =
      buildAppResponseSpec contract customEvent response := by
  cases hR : response.attributes with
  | nil => simp [buildAppResponse, buildAppResponseSpec, hR]
  | cons a rest => simp [buildAppResponse, buildAppResponseSpec, hR]

/-- C8, code bug: a raw query for a contract with no storage entry returns
`Err "Key <K> not found"`, not `Err "Contract <A> not found"` — the source's
contract-not-found guard is dead code because `getContractStorage` never
returns a falsy value (`?? Map()`). -/
theorem handleQuery_raw_missing_contract :
    getContractInfo stEmpty.store "noone" = none
  ∧ lookupA stEmpty.store.contractStorage "noone" = none
  ∧ handleQuery ctxA stEmpty (.raw { contract_addr := "noone", key := "nope" }) =
      .ok (.error "Key nope not found", stEmpty) := by
  refine ⟨rfl, rfl, rfl⟩

/-- C9: `query` never mutates the chain store: whatever it returns, the
module state (codes, contracts, contractStorage, counters, VM cache) is the
input state — no snapshot is taken and no revert occurs (the definition
threads the state through untouched, as the source assigns nothing). -/
theorem query_no_mutation (ctx : SimContext) (st : WasmState)
    (addr : String) (msg : Msg) :
    ∀ r st', query ctx st addr msg = .ok (r, st') → st' = st ∧ st'.store = st.store := by
  intro r st' h
  unfold query at h
  split at h
  · cases h
  · dsimp only at h
    split at h
    · cases h; exact ⟨rfl, rfl⟩
    · cases h; exact ⟨rfl, rfl⟩

/-- C9, witness: a concrete successful query returning `"qv"` with the state
unchanged. -/
theorem query_no_mutation_witness :
    ∃ r st', query ctxA stA "p" "q" = .ok (r, st') ∧ st' = stA ∧ st'.store = stA.store := by
  refine ⟨_, _, rfl, ?_, ?_⟩
  · exact (query_no_mutation ctxA stA "p" "q" _ _ rfl).1
  · exact (query_no_mutation ctxA stA "p" "q" _ _ rfl).2

/-- C10, counterexample: an unknown wasm *query* variant is not thrown — it
is returned as `Err "Unknown wasm query"` (no exception on the `Except
EngineError` layer). -/
theorem handleQuery_unknown_returns_err :
    handleQuery ctxA stEmpty WasmQuery.unknown = .ok (.error "Unknown wasm query", stEmpty) :=
  rfl

/-- C10, amended: a missing contract or code in `buildVM`, a missing cached
VM in `callExecute`/`callReply`/`query`, and an unknown *message* variant in
`handleMsg` are thrown as exceptions, never returned as `Err`, and the
submessage reply machinery propagates them without catching (even with
`reply_on = Error/Always`); an unknown *query* variant, however, is returned
as `Err "Unknown wasm query"` (see the counterexample). -/
theorem engine_failures_thrown (ctx : SimContext) :
    (∀ st addr, lookupA st.vms addr = none → getContractInfo st.store addr = none →
       buildVM st addr = .error (.contractNotFound addr))
  ∧ (∀ st addr ci, lookupA st.vms addr = none → getContractInfo st.store addr = some ci →
       getCodeInfo st.store ci.codeId = none → buildVM st addr = .error (.codeNotFound ci.codeId))
  ∧ (∀ st sender funds addr msg, lookupA st.vms addr = none →
       callExecute ctx st sender funds addr msg = .error (.noVM addr))
  ∧ (∀ st addr rm, lookupA st.vms addr = none →
       callReply ctx st addr rm = .error (.noVM addr))
  ∧ (∀ st addr msg, lookupA st.vms addr = none →
       query ctx st addr msg = .error (.noVM addr))
  ∧ (∀ (n : Nat) st sender, handleMsgF ctx (n + 1) st sender .unknown = .error .unknownWasmMsg)
  ∧ (∀ (n : Nat) st addr (m : SubMsg) ex, handleMsgF ctx n st addr m.msg = .error ex →
       executeSubmsgF ctx (n + 1) st addr m = .error ex)
  ∧ (∀ (n : Nat) snap st addr m rest res ex, executeSubmsgF ctx n st addr m = .error ex →
       hcrAux ctx (n + 1) snap st addr res (m :: rest) = .error ex) := by
  refine ⟨?_, ?_, ?_, ?_, ?_, ?_, ?_, ?_⟩
  · intro st addr h1 h2
    simp [buildVM, h1, h2]
  · intro st addr ci h1 h2 h3
    simp [buildVM, h1, h2, h3]
  · intro st sender funds addr msg h
    simp [callExecute, h]
  · intro st addr rm h
    simp [callReply, h]
  · intro st addr msg h
    simp [query, h]
  · intro n st sender
    simp [handleMsgF]
  · intro n st addr m ex h
    simp [executeSubmsgF, h]
  · intro n snap st addr m rest res ex h
    simp [hcrAux, h]

/-- C10, witness: concrete instances of every thrown engine failure and of
its propagation through `executeSubmsg` (with `reply_on = Always`) and the
submessage loop. -/
theorem engine_failures_thrown_witness :
    buildVM stEmpty "ghost" = .error (.contractNotFound "ghost")
  ∧ buildVM stMissingCode "ghost" = .error (.codeNotFound 99)
  ∧ callExecute ctxA stEmpty "a" [] "ghost" "m" = .error (.noVM "ghost")
  ∧ callReply ctxA stEmpty "ghost" { id := 0, result := .error "e" } = .error (.noVM "ghost")
  ∧ query ctxA stEmpty "ghost" "m" = .error (.noVM "ghost")
  ∧ handleMsgF ctxA 1 stEmpty "a" .unknown = .error .unknownWasmMsg
  ∧ executeSubmsgF ctxA 2 stEmpty "p" mUnknown = .error .unknownWasmMsg
  ∧ hcrAux ctxA 3 stEmpty.store stEmpty "p" res0 [mUnknown] = .error .unknownWasmMsg := by
  obtain ⟨h1, h2, h3, h4, h5, h6, h7, h8⟩ := engine_failures_thrown ctxA
  have hb1 := engine_failures_thrown ctxA
  refine ⟨h1 stEmpty "ghost" rfl rfl, ?_, h3 stEmpty "a" [] "ghost" "m" rfl,
    h4 stEmpty "ghost" { id := 0, result := .error "e" } rfl,
    h5 stEmpty "ghost" "m" rfl, h6 0 stEmpty "a", ?_, ?_⟩
  · exact h2 stMissingCode "ghost"
      { codeId := 99, creator := "a", admin := none, label := "", created := 0 } rfl rfl rfl
  · exact h7 1 stEmpty "p" mUnknown .unknownWasmMsg (h6 0 stEmpty "p")
  · exact h8 2 stEmpty.store stEmpty "p" mUnknown [] res0 .unknownWasmMsg
      (h7 1 stEmpty "p" mUnknown .unknownWasmMsg (h6 0 stEmpty "p"))

end CWSim
